import Mathlib

/-!
Shallow embedding of the NEAR-intents Zcash client
(src/agno-near-zcash/src/near_zcash_intents.py and
src/agno-near-zcash/src/zec_agent.py).

Python floats are modelled as exact rationals (ℚ); Python `int(x)` is
truncation toward zero, modelled with `Int.tdiv` on the rational's
numerator and denominator.  Python dicts that are used as records with a
fixed key set are modelled as structures with `Option` fields (a missing
key, whose access raises `KeyError`, is `none`); the literal dict that
builds a token-diff `diff` map is modelled by `mkDiff`, which keeps the
last value when both keys coincide, exactly as a Python dict literal
does.  Network calls are modelled by passing the relay's behaviour in as
an explicit argument of type `RelayOutcome`; `try/except` blocks become
pattern matches on that outcome.  Fallible code returns `Option` or
`Except` (a `ValueError` or `KeyError` is `none` or an `error`).
-/

namespace ZcashIntents

/-- One entry of the Python `ASSET_MAP` dict: on-chain token id, optional
OMFT id, decimal precision, and the `shielded` flag (absent in the dict for
USDC and NEAR, hence `false`). -/
structure AssetInfo where
  token_id : String
  omft : Option String
  decimals : ℕ
  shielded : Bool
deriving DecidableEq

/-- The module-level `ASSET_MAP` dict of near_zcash_intents.py, as a lookup
function (a key miss, which raises `KeyError` in Python, is `none`). -/
def ASSET_MAP (token : String) : Option AssetInfo :=
  if token = "USDC" then
    some ⟨"a0b86991c6218b36c1d19d4a2e9eb0ce3606eb48.factory.bridge.near",
          some "eth-0xa0b86991c6218b36c1d19d4a2e9eb0ce3606eb48.omft.near", 6, false⟩
  else if token = "NEAR" then
    some ⟨"wrap.near", none, 24, false⟩
  else if token = "ZEC" then
    some ⟨"zcash.factory.bridge.near", some "zcash-token.omft.near", 8, true⟩
  else
    none

/-- Source `get_asset_id`: asset identifier in the solver-bus format.  The
Python fall-through branch indexes `ASSET_MAP[token]`, so an unregistered
token raises `KeyError`, modelled by `none`. -/
def get_asset_id (token : String) : Option String :=
  if token = "NEAR" then some "near"
  else if token = "ZEC" then (ASSET_MAP token).map (fun a => "nep141:" ++ a.token_id)
  else if token = "USDC" then
    some "nep141:a0b86991c6218b36c1d19d4a2e9eb0ce3606eb48.factory.bridge.near"
  else (ASSET_MAP token).map (fun a => "nep141:" ++ a.token_id)

/-- An asset is privacy-capable when its registry entry carries the
`shielded` flag (spec section 3); only ZEC does. -/
def privacy_capable (token : String) : Bool :=
  ((ASSET_MAP token).map AssetInfo.shielded).getD false

/-- Python `int(q)` for a rational `q`: truncation toward zero. -/
def truncRat (q : ℚ) : ℤ :=
  q.num.tdiv q.den

/-- The integer computed inside source `to_decimals`:
`int(amount * 10 ** decimals)`. -/
def to_decimalsInt (amount : ℚ) (decimals : ℕ) : ℤ :=
  truncRat (amount * ((10 ^ decimals : ℕ) : ℚ))

/-- Source `to_decimals`: `str(int(amount * 10 ** decimals))`. -/
def to_decimals (amount : ℚ) (decimals : ℕ) : String :=
  toString (to_decimalsInt amount decimals)

/-- Source `from_decimals`: `float(amount) / 10 ** decimals`.  The string
argument is the integer numeral produced by `to_decimals`; `float` of that
numeral is its exact value, passed here as `ℤ`. -/
def from_decimalsOfInt (n : ℤ) (decimals : ℕ) : ℚ :=
  (n : ℚ) / ((10 ^ decimals : ℕ) : ℚ)

/-- The `ShieldingOptions` TypedDict. -/
structure ShieldingOptions where
  enabled : Bool
  memo : Option String
  viewing_key : Option String
deriving DecidableEq

/-- The `Intent` TypedDict: intent kind plus the `diff` dict, modelled as
an association list in insertion order. -/
structure TokenDiffIntent where
  intent : String
  diff : List (String × String)
deriving DecidableEq

/-- The `Quote` TypedDict that gets signed (nonce, signer, verifying
contract, deadline, intents). -/
structure SignedQuote where
  nonce : String
  signer_id : String
  verifying_contract : String
  deadline : String
  intents : List TokenDiffIntent
deriving DecidableEq

/-- The `shield_params` dict attached to a shielded commitment. -/
structure ShieldParams where
  shielded : Bool
  memo : Option String
  viewing_key : Option String
deriving DecidableEq

/-- The `ZcashCommitment` TypedDict.  `payload` is `json.dumps(quote)` in
the source; the JSON text is modelled by the quote structure it encodes. -/
structure ZcashCommitment where
  standard : String
  payload : SignedQuote
  signature : String
  public_key : String
  shield_params : Option ShieldParams
deriving DecidableEq

/-- A Python dict literal with two entries `{k1: v1, k2: v2}`: when the
keys coincide the second value overwrites the first and the dict has a
single entry. -/
def mkDiff (k1 v1 k2 v2 : String) : List (String × String) :=
  if k1 = k2 then [(k1, v2)] else [(k1, v1), (k2, v2)]

/-- Source `create_shielded_token_diff_quote`.  The ambient effects are
passed explicitly: `nonce` is the base64 random nonce, `now_ms` the clock
reading `time.time() * 1000`, `account_id` the account id, `sign` models
`base58.b58encode(account.signer.sign(json.dumps(quote)))` and `pk` the
base58 public key.  A `KeyError` on an unregistered token is `none`. -/
def create_shielded_token_diff_quote (nonce : String) (now_ms : ℕ)
    (account_id : String) (sign : SignedQuote → String) (pk : String)
    (token_in : String) (amount_in : ℚ) (token_out : String) (amount_out : ℚ)
    (shield_options : Option ShieldingOptions) : Option ZcashCommitment :=
  let so : ShieldingOptions :=
    match shield_options with
    | none =>
        if token_in = "ZEC" ∨ token_out = "ZEC" then ⟨true, none, none⟩
        else ⟨false, none, none⟩
    | some s => s
  match ASSET_MAP token_in, ASSET_MAP token_out,
        get_asset_id token_in, get_asset_id token_out with
  | some ai, some ao, some id_in, some id_out =>
    let quote : SignedQuote :=
      ⟨nonce, account_id, "intents.near", toString (now_ms + 120000),
        [⟨"token_diff",
          mkDiff id_in ("-" ++ to_decimals amount_in ai.decimals)
                 id_out (to_decimals amount_out ao.decimals)⟩]⟩
    let signature := "ed25519:" ++ sign quote
    let public_key := "ed25519:" ++ pk
    if so.enabled then
      some ⟨"raw_ed25519", quote, signature, public_key,
            some ⟨true, so.memo, so.viewing_key⟩⟩
    else
      some ⟨"raw_ed25519", quote, signature, public_key, none⟩
  | _, _, _, _ => none

/-- A candidate quote returned by the solver bus: an opaque dict with at
least an `amount_out` field.  `amount_out` is the numeric value that
`float(x["amount_out"])` yields from the on-chain decimal string; the other
solver-specific fields are collapsed into the opaque `solver_data`. -/
structure SolverOption where
  amount_out : ℚ
  solver_data : String
deriving DecidableEq

/-- The accumulator loop of Python `max(options, key=lambda x:
float(x["amount_out"]))`: scan left to right, replacing the current best
only on a strictly larger key, so the first maximal element wins. -/
def selectAccum (a : SolverOption) (l : List SolverOption) : SolverOption :=
  l.foldl (fun acc y => if acc.amount_out < y.amount_out then y else acc) a

/-- Source `select_best_option`: `ValueError("No options provided")` on an
empty list, otherwise the maximum of the list under the numeric
`amount_out` key. -/
def select_best_option (options : List SolverOption) : Except String SolverOption :=
  match options with
  | [] => .error "No options provided"
  | x :: xs => .ok (selectAccum x xs)

/-- Outcome of one HTTP round trip to the solver bus, passed to the code
under verification as an explicit argument: either a well-formed success
body (the `"result"` field), or one of the failure modes the `try` blocks
in the source can see (transport exception, non-2xx status raised by
`raise_for_status`, body without a `"result"` field). -/
inductive RelayOutcome (α : Type) where
  | ok (result : α)
  | transportError (msg : String)
  | httpError (status : ℕ) (msg : String)
  | malformed (msg : String)
deriving DecidableEq

/-- True on every outcome the `except` branches of the source catch. -/
def RelayOutcome.isError {α : Type} : RelayOutcome α → Bool
  | .ok _ => false
  | .transportError _ => true
  | .httpError _ _ => true
  | .malformed _ => true

/-- The error payload of `publish_shielded_intent`: the re-raised
exception, tagged by failure mode. -/
inductive PublishError where
  | transport (msg : String)
  | http (status : ℕ) (msg : String)
  | malformed (msg : String)
deriving DecidableEq

/-- The `IntentRequest` object.  Its `request` dict only ever holds the
keys `assetIn`, `amountIn`, `assetOut`, `amountOut`, `slippage`, modelled
as `Option` fields (a key that was never written is `none`). -/
structure IntentRequestS where
  assetIn : Option String
  amountIn : Option String
  assetOut : Option String
  amountOut : Option String
  slippage : Option String
  min_deadline_ms : ℕ
deriving DecidableEq

/-- A fresh `IntentRequest()`: empty request dict, default deadline. -/
def emptyIntentRequest : IntentRequestS :=
  ⟨none, none, none, none, none, 120000⟩

/-- Source `IntentRequest.set_asset_in`: `ValueError` (here `none`) on an
unregistered symbol, otherwise store the asset id and the on-chain
amount. -/
def set_asset_in (r : IntentRequestS) (asset_name : String) (amount : ℚ) :
    Option IntentRequestS :=
  match ASSET_MAP asset_name with
  | none => none
  | some info =>
    match get_asset_id asset_name with
    | none => none
    | some aid =>
      some { r with assetIn := some aid,
                    amountIn := some (to_decimals amount info.decimals) }

/-- Source `IntentRequest.set_asset_out`: like `set_asset_in`, but the
amount is optional and `amountOut` is written only when it is given. -/
def set_asset_out (r : IntentRequestS) (asset_name : String) (amount : Option ℚ) :
    Option IntentRequestS :=
  match ASSET_MAP asset_name with
  | none => none
  | some info =>
    match get_asset_id asset_name with
    | none => none
    | some aid =>
      match amount with
      | some amt =>
        some { r with assetOut := some aid,
                      amountOut := some (to_decimals amt info.decimals) }
      | none => some { r with assetOut := some aid }

/-- The serialized request shape: `assets.in`, `assets.out`, `amounts.in`,
optional `amounts.out`, the relative deadline descriptor, optional
slippage. -/
structure SerializedRequest where
  asset_in : String
  asset_out : String
  amount_in : String
  amount_out : Option String
  deadline_type : String
  deadline_ms : ℕ
  slippage : Option String
deriving DecidableEq

/-- Source `IntentRequest.serialize`: reads `request["assetIn"]`,
`request["assetOut"]`, `request["amountIn"]` unconditionally (a missing
key raises `KeyError`, here `none`) and copies `amountOut` and `slippage`
only when present. -/
def serialize (r : IntentRequestS) : Option SerializedRequest :=
  match r.assetIn, r.assetOut, r.amountIn with
  | some ai, some ao, some amt =>
    some ⟨ai, ao, amt, r.amountOut, "relative", r.min_deadline_ms, r.slippage⟩
  | _, _, _ => none

/-- Source `fetch_options`: serializes the request and posts it inside one
`try` block; every caught failure (transport, non-2xx, malformed body, and
a `KeyError` from `serialize` itself) degrades to the empty list.  The
relay's behaviour is the explicit `relay` argument. -/
def fetch_options (request : IntentRequestS)
    (relay : SerializedRequest → RelayOutcome (List SolverOption)) :
    List SolverOption :=
  match serialize request with
  | none => []
  | some s =>
    match relay s with
    | .ok result => result
    | .transportError _ => []
    | .httpError _ _ => []
    | .malformed _ => []

/-- Source `publish_shielded_intent`: posts the signed commitment; on any
failure it logs and re-raises, so every error outcome propagates as an
`Except.error` and only a well-formed success body returns normally. -/
def publish_shielded_intent {R : Type} (outcome : RelayOutcome R) :
    Except PublishError R :=
  match outcome with
  | .ok r => .ok r
  | .transportError m => .error (.transport m)
  | .httpError s m => .error (.http s m)
  | .malformed m => .error (.malformed m)

/-- The failure taxonomy of `intent_swap_zec`: `ValueError` on an
unsupported asset, `ValueError("No swap options available ...")` on an
empty option list, the defensive selector error, and a propagated publish
failure. -/
inductive SwapError where
  | unsupportedAsset (token : String)
  | noLiquidity (token_in token_out : String)
  | noOptions
  | publishFailed (e : PublishError)
deriving DecidableEq

/-- Source `intent_swap_zec`: build the request, fetch options, abort with
`noLiquidity` when the list is empty (`if not options`), select the best
option, derive the shielding options from the privacy level, build and
sign the commitment — passing `float(best_option["amount_out"])` as the
output amount — and publish it.  The two relay round trips are the
explicit `fetchRelay` and `publishRelay` arguments; `R` is the type of the
relay's publish response. -/
def intent_swap_zec {R : Type}
    (fetchRelay : SerializedRequest → RelayOutcome (List SolverOption))
    (publishRelay : ZcashCommitment → RelayOutcome R)
    (nonce : String) (now_ms : ℕ) (account_id : String)
    (sign : SignedQuote → String) (pk : String)
    (token_in : String) (amount_in : ℚ) (token_out : String)
    (privacy_level : String) : Except SwapError R :=
  match set_asset_in emptyIntentRequest token_in amount_in with
  | none => .error (.unsupportedAsset token_in)
  | some r1 =>
    match set_asset_out r1 token_out none with
    | none => .error (.unsupportedAsset token_out)
    | some request =>
      match fetch_options request fetchRelay with
      | [] => .error (.noLiquidity token_in token_out)
      | o :: os =>
        match select_best_option (o :: os) with
        | .error _ => .error .noOptions
        | .ok best_option =>
          let shield_options : ShieldingOptions :=
            if privacy_level = "shielded" ∧ (token_in = "ZEC" ∨ token_out = "ZEC") then
              ⟨true, some ("Swap " ++ token_in ++ " to " ++ token_out), none⟩
            else ⟨false, none, none⟩
          match create_shielded_token_diff_quote nonce now_ms account_id sign pk
                  token_in amount_in token_out best_option.amount_out
                  (some shield_options) with
          | none => .error (.unsupportedAsset token_in)
          | some signed_intent =>
            match publish_shielded_intent (publishRelay signed_intent) with
            | .ok response => .ok response
            | .error e => .error (.publishFailed e)

/-- Source `ZcashAgent._calculate_privacy_ratio` (zec_agent.py): ratio of
the raw ZEC balance to the sum of all raw balances, times 100, with a
guard returning 0 when the sum is not positive.  A portfolio dict is an
association list from token symbol to balance. -/
def calculate_privacy_ratio (portfolio : List (String × ℚ)) : ℚ :=
  let total_value := (portfolio.map Prod.snd).sum
  if total_value ≤ 0 then 0
  else ((portfolio.lookup "ZEC").getD 0) / total_value * 100

/-- The NEAR-denominated portfolio value computed by source
`ZcashAgent.analyze_portfolio`: NEAR balance plus ZEC balance at the fixed
rate 1 ZEC = 10 NEAR plus USDC balance at the fixed rate 1 USDC = 0.25
NEAR. -/
def total_value_near (portfolio : List (String × ℚ)) : ℚ :=
  ((portfolio.lookup "NEAR").getD 0)
    + ((portfolio.lookup "ZEC").getD 0) * 10
    + ((portfolio.lookup "USDC").getD 0) * (1 / 4)

/-- The NEAR-denominated value held in privacy-capable assets (only ZEC),
at the same fixed rate the analysis uses. -/
def privacy_value_near (portfolio : List (String × ℚ)) : ℚ :=
  ((portfolio.lookup "ZEC").getD 0) * 10

/-- The privacy ratio as the spec words it, for comparison with the code:
value held in privacy-capable assets divided by the portfolio total value
(both in the reference unit the analysis itself uses), times 100, and 0
when the total value is 0. -/
def spec_privacy_ratio (portfolio : List (String × ℚ)) : ℚ :=
  if total_value_near portfolio = 0 then 0
  else privacy_value_near portfolio / total_value_near portfolio * 100

/-- Truncation of an integer-valued rational is that integer. -/
theorem truncRat_intCast (n : ℤ) : truncRat (n : ℚ) = n := by
  unfold truncRat
  rw [Rat.intCast_num, Rat.intCast_den]
  exact Int.tdiv_one n

/-- Evaluation rule for `to_decimalsInt` at an input whose scaled value is
a whole number. -/
theorem to_decimalsInt_eq {x : ℚ} {d : ℕ} {n : ℤ}
    (h : x * ((10 ^ d : ℕ) : ℚ) = (n : ℚ)) : to_decimalsInt x d = n := by
  unfold to_decimalsInt
  rw [h, truncRat_intCast]

/-- Evaluation rule for `to_decimals` at an input whose scaled value is a
whole number. -/
theorem to_decimals_eq {x : ℚ} {d : ℕ} {n : ℤ}
    (h : x * ((10 ^ d : ℕ) : ℚ) = (n : ℚ)) : to_decimals x d = toString n := by
  unfold to_decimals
  rw [to_decimalsInt_eq h]

/-- The registry has exactly the three entries USDC, NEAR, ZEC. -/
theorem ASSET_MAP_cases {t : String} {info : AssetInfo}
    (h : ASSET_MAP t = some info) : t = "USDC" ∨ t = "NEAR" ∨ t = "ZEC" := by
  unfold ASSET_MAP at h
  split_ifs at h with h1 h2 h3
  · exact Or.inl h1
  · exact Or.inr (Or.inl h2)
  · exact Or.inr (Or.inr h3)

/-- Every registered symbol has a solver-bus asset identifier. -/
theorem get_asset_id_registered {t : String} {info : AssetInfo}
    (h : ASSET_MAP t = some info) : ∃ tid, get_asset_id t = some tid := by
  rcases ASSET_MAP_cases h with rfl | rfl | rfl
  · exact ⟨_, rfl⟩
  · exact ⟨_, rfl⟩
  · exact ⟨_, rfl⟩

/-- Among registered symbols, the privacy-capable ones are exactly ZEC. -/
theorem privacy_capable_iff {t : String} {info : AssetInfo}
    (h : ASSET_MAP t = some info) : privacy_capable t = true ↔ t = "ZEC" := by
  rcases ASSET_MAP_cases h with rfl | rfl | rfl <;>
    simp [privacy_capable, ASSET_MAP]

/-- On a nonnegative rational, Python truncation toward zero agrees with
the floor. -/
theorem truncRat_eq_floor (q : ℚ) (hq : 0 ≤ q) : truncRat q = ⌊q⌋ := by
  have hn : 0 ≤ q.num := Rat.num_nonneg.mpr hq
  obtain ⟨m, hm⟩ : ∃ m : ℕ, q.num = (m : ℤ) :=
    ⟨q.num.toNat, (Int.toNat_of_nonneg hn).symm⟩
  rw [Rat.floor_def, truncRat, hm, ← Int.ofNat_tdiv]
  exact Int.ofNat_ediv m q.den

/-- C2: for every registered asset and every strictly positive amount,
converting to the on-chain representation and back recovers the amount
within one unit of the asset's smallest denomination, i.e. within
10^(-decimals). -/
theorem to_from_decimals_roundtrip (sym : String) (info : AssetInfo)
    (hreg : ASSET_MAP sym = some info) (x : ℚ) (hx : 0 < x) :
    |from_decimalsOfInt (to_decimalsInt x info.decimals) info.decimals - x|
      ≤ 1 / ((10 ^ info.decimals : ℕ) : ℚ) := by
  set d := info.decimals with hd
  set P : ℚ := ((10 ^ d : ℕ) : ℚ) with hPdef
  have hP : 0 < P := by
    rw [hPdef]
    exact_mod_cast pow_pos (by norm_num : (0:ℕ) < 10) d
  have hy : 0 ≤ x * P := le_of_lt (mul_pos hx hP)
  have ht : to_decimalsInt x d = ⌊x * P⌋ := truncRat_eq_floor (x * P) hy
  have h1 : (↑⌊x * P⌋ : ℚ) ≤ x * P := Int.floor_le _
  have h2 : x * P < ↑⌊x * P⌋ + 1 := Int.lt_floor_add_one _
  have hxP : x * P / P = x := mul_div_cancel_right₀ x (ne_of_gt hP)
  have hle : (↑⌊x * P⌋ : ℚ) / P ≤ x * P / P := by gcongr
  have hlt : x * P / P < ((↑⌊x * P⌋ : ℚ) + 1) / P := by gcongr
  rw [hxP] at hle hlt
  rw [add_div] at hlt
  have hone : 0 < 1 / P := one_div_pos.mpr hP
  rw [from_decimalsOfInt, ht, abs_le]
  constructor <;> linarith

/-- C2 witness: the roundtrip bound instantiated at the registered asset
NEAR (24 decimals) and the amount 3. -/
theorem to_from_decimals_roundtrip_witness :
    |from_decimalsOfInt (to_decimalsInt 3 24) 24 - 3| ≤ 1 / ((10 ^ 24 : ℕ) : ℚ) :=
  to_from_decimals_roundtrip "NEAR" ⟨"wrap.near", none, 24, false⟩ rfl 3 zero_lt_three

/-- The scan never returns an element smaller than its accumulator. -/
theorem selectAccum_init_le (l : List SolverOption) :
    ∀ a : SolverOption, a.amount_out ≤ (selectAccum a l).amount_out := by
  induction l with
  | nil => intro a; exact le_refl _
  | cons x t ih =>
    intro a
    by_cases h : a.amount_out < x.amount_out
    · have hsel : selectAccum a (x :: t) = selectAccum x t := by
        simp [selectAccum, h]
      rw [hsel]
      exact le_trans (le_of_lt h) (ih x)
    · have hsel : selectAccum a (x :: t) = selectAccum a t := by
        simp [selectAccum, h]
      rw [hsel]
      exact ih a

/-- Position of the scan result: everything before it is strictly smaller,
everything after it is no larger — so it is the first maximal element. -/
theorem selectAccum_decomp (l : List SolverOption) :
    ∀ a : SolverOption, ∃ l₁ l₂,
      a :: l = l₁ ++ (selectAccum a l) :: l₂ ∧
      (∀ y ∈ l₁, y.amount_out < (selectAccum a l).amount_out) ∧
      (∀ y ∈ l₂, y.amount_out ≤ (selectAccum a l).amount_out) := by
  induction l with
  | nil =>
    intro a
    exact ⟨[], [], rfl, by simp, by simp⟩
  | cons x t ih =>
    intro a
    by_cases h : a.amount_out < x.amount_out
    · have hsel : selectAccum a (x :: t) = selectAccum x t := by
        simp [selectAccum, h]
      obtain ⟨l₁, l₂, he, hlt, hle⟩ := ih x
      refine ⟨a :: l₁, l₂, ?_, ?_, ?_⟩
      · rw [hsel, List.cons_append, ← he]
      · intro y hy
        rw [hsel]
        rcases List.mem_cons.mp hy with rfl | hy
        · exact lt_of_lt_of_le h (selectAccum_init_le t x)
        · exact hlt y hy
      · intro y hy
        rw [hsel]
        exact hle y hy
    · have hsel : selectAccum a (x :: t) = selectAccum a t := by
        simp [selectAccum, h]
      obtain ⟨l₁, l₂, he, hlt, hle⟩ := ih a
      cases l₁ with
      | nil =>
        simp only [List.nil_append] at he
        obtain ⟨ha, ht⟩ := List.cons.inj he
        refine ⟨[], x :: t, ?_, by simp, ?_⟩
        · rw [List.nil_append, hsel, ← ha]
        · intro y hy
          rw [hsel, ← ha]
          rcases List.mem_cons.mp hy with rfl | hy
          · exact not_lt.mp h
          · have hyl : y ∈ l₂ := ht ▸ hy
            have := hle y hyl
            rw [← ha] at this
            exact this
      | cons b l₁ =>
        rw [List.cons_append] at he
        obtain ⟨hab, ht⟩ := List.cons.inj he
        refine ⟨a :: x :: l₁, l₂, ?_, ?_, ?_⟩
        · rw [hsel, List.cons_append, List.cons_append, ← ht]
        · intro y hy
          rw [hsel]
          have hb : b.amount_out < (selectAccum a t).amount_out :=
            hlt b (List.mem_cons_self b l₁)
          rcases List.mem_cons.mp hy with rfl | hy
          · calc y.amount_out = b.amount_out := by rw [hab]
              _ < _ := hb
          · rcases List.mem_cons.mp hy with rfl | hy
            · calc y.amount_out ≤ a.amount_out := not_lt.mp h
                _ = b.amount_out := by rw [hab]
                _ < _ := hb
            · exact hlt y (List.mem_cons_of_mem b hy)
        · intro y hy
          rw [hsel]
          exact hle y hy

/-- C3: select_best_option on the empty list fails with the NoOptions
error; on any non-empty list it returns an element of the list whose
numeric amount_out is maximal, and on ties the first maximal element (all
elements before the result are strictly smaller, all after are no
larger). -/
theorem select_best_option_correct :
    select_best_option [] = Except.error "No options provided" ∧
    ∀ (options : List SolverOption), options ≠ [] →
      ∃ best l₁ l₂, select_best_option options = Except.ok best ∧
        options = l₁ ++ best :: l₂ ∧
        (∀ y ∈ options, y.amount_out ≤ best.amount_out) ∧
        (∀ y ∈ l₁, y.amount_out < best.amount_out) ∧
        (∀ y ∈ l₂, y.amount_out ≤ best.amount_out) := by
  refine ⟨rfl, ?_⟩
  intro options hne
  match options with
  | x :: xs =>
    obtain ⟨l₁, l₂, he, hlt, hle⟩ := selectAccum_decomp xs x
    refine ⟨selectAccum x xs, l₁, l₂, rfl, he, ?_, hlt, hle⟩
    intro y hy
    rw [he] at hy
    rcases List.mem_append.mp hy with hy | hy
    · exact le_of_lt (hlt y hy)
    · rcases List.mem_cons.mp hy with rfl | hy
      · exact le_refl _
      · exact hle y hy

/-- C3 witness: the selector contract instantiated at a concrete
three-element list containing a tie for the maximum. -/
theorem select_best_option_correct_witness :
    ∃ best l₁ l₂,
      select_best_option [⟨10, "s1"⟩, ⟨15, "s2"⟩, ⟨15, "s3"⟩] = Except.ok best ∧
      ([⟨10, "s1"⟩, ⟨15, "s2"⟩, ⟨15, "s3"⟩] : List SolverOption) = l₁ ++ best :: l₂ ∧
      (∀ y ∈ ([⟨10, "s1"⟩, ⟨15, "s2"⟩, ⟨15, "s3"⟩] : List SolverOption),
        y.amount_out ≤ best.amount_out) ∧
      (∀ y ∈ l₁, y.amount_out < best.amount_out) ∧
      (∀ y ∈ l₂, y.amount_out ≤ best.amount_out) :=
  select_best_option_correct.2 _ (by simp)

/-- C1 (evidence for the divergence): the end-to-end swap of 0.5 NEAR to
ZEC with relay quotes 12000000 and 15000000.  The second quote is
selected, and the NEAR debit is the input scaled by 10^24, but the ZEC
credit in the diff is "1500000000000000": `intent_swap_zec` feeds the
quote's already-on-chain `amount_out` back through `to_decimals`, scaling
it by a second factor of 10^8, instead of the claimed unchanged
"15000000".  (The privacy level "default" also leaves `shield_params`
empty.) -/
theorem swap_scenario_a_diff :
    intent_swap_zec (R := ZcashCommitment)
        (fun _ => RelayOutcome.ok [⟨12000000, "solver1"⟩, ⟨15000000, "solver2"⟩])
        (fun c => RelayOutcome.ok c)
        "NONCE" 0 "alice.near" (fun _ => "SIG") "PUBKEY"
        "NEAR" (1/2) "ZEC" "default"
      = Except.ok
          ⟨"raw_ed25519",
           ⟨"NONCE", "alice.near", "intents.near", "120000",
            [⟨"token_diff",
              [("near", "-500000000000000000000000"),
               ("nep141:zcash.factory.bridge.near", "1500000000000000")]⟩]⟩,
           "ed25519:SIG", "ed25519:PUBKEY", none⟩ := by
  have hin : to_decimals (1/2) 24 = "500000000000000000000000" := by
    rw [to_decimals_eq (n := 500000000000000000000000) (by push_cast; norm_num)]
    decide
  have hout : to_decimals 15000000 8 = "1500000000000000" := by
    rw [to_decimals_eq (n := 1500000000000000) (by push_cast; norm_num)]
    decide
  have e1 : set_asset_in emptyIntentRequest "NEAR" (1/2)
      = some ⟨some "near", some (to_decimals (1/2) 24), none, none, none, 120000⟩ := rfl
  have e2 : set_asset_out
        (⟨some "near", some (to_decimals (1/2) 24), none, none, none, 120000⟩ : IntentRequestS)
        "ZEC" none
      = some ⟨some "near", some (to_decimals (1/2) 24),
              some "nep141:zcash.factory.bridge.near", none, none, 120000⟩ := rfl
  have e3 : fetch_options
        (⟨some "near", some (to_decimals (1/2) 24),
          some "nep141:zcash.factory.bridge.near", none, none, 120000⟩ : IntentRequestS)
        (fun _ => RelayOutcome.ok [⟨12000000, "solver1"⟩, ⟨15000000, "solver2"⟩])
      = [⟨12000000, "solver1"⟩, ⟨15000000, "solver2"⟩] := rfl
  have hc : (12000000 : ℚ) < 15000000 := by norm_num
  have e4 : select_best_option [⟨12000000, "solver1"⟩, ⟨15000000, "solver2"⟩]
      = Except.ok ⟨15000000, "solver2"⟩ := by
    simp [select_best_option, selectAccum, hc]
  have hnot : ¬("default" = "shielded" ∧ ("NEAR" = "ZEC" ∨ "ZEC" = "ZEC")) := by
    decide
  have e5 : create_shielded_token_diff_quote "NONCE" 0 "alice.near"
        (fun _ => "SIG") "PUBKEY" "NEAR" (1/2) "ZEC" 15000000
        (some ⟨false, none, none⟩)
      = some ⟨"raw_ed25519",
              ⟨"NONCE", "alice.near", "intents.near", "120000",
               [⟨"token_diff",
                 [("near", "-500000000000000000000000"),
                  ("nep141:zcash.factory.bridge.near", "1500000000000000")]⟩]⟩,
              "ed25519:SIG", "ed25519:PUBKEY", none⟩ := by
    have estep : create_shielded_token_diff_quote "NONCE" 0 "alice.near"
          (fun _ => "SIG") "PUBKEY" "NEAR" (1/2) "ZEC" 15000000
          (some ⟨false, none, none⟩)
        = some ⟨"raw_ed25519",
                ⟨"NONCE", "alice.near", "intents.near", toString (0 + 120000),
                 [⟨"token_diff",
                   [("near", "-" ++ to_decimals (1/2) 24),
                    ("nep141:zcash.factory.bridge.near", to_decimals 15000000 8)]⟩]⟩,
                "ed25519:" ++ "SIG", "ed25519:" ++ "PUBKEY", none⟩ := rfl
    rw [estep, hin, hout]
    decide
  have hnot2 : ¬("default" = "shielded" ∧ ("NEAR" = "ZEC" ∨ True)) := by decide
  unfold intent_swap_zec
  simp only [e1, e2, e3, e4, if_neg hnot, if_neg hnot2, e5, publish_shielded_intent]

/-- For registered tokens the commitment builder succeeds and its signed
payload is the canonical quote with the single token_diff intent. -/
theorem create_payload (nonce : String) (now_ms : ℕ) (account_id : String)
    (sign : SignedQuote → String) (pk : String)
    (token_in : String) (amount_in : ℚ) (token_out : String) (amount_out : ℚ)
    (so : Option ShieldingOptions) (ai ao : AssetInfo) (id_in id_out : String)
    (h1 : ASSET_MAP token_in = some ai) (h2 : ASSET_MAP token_out = some ao)
    (g1 : get_asset_id token_in = some id_in)
    (g2 : get_asset_id token_out = some id_out) :
    ∃ c, create_shielded_token_diff_quote nonce now_ms account_id sign pk
            token_in amount_in token_out amount_out so = some c ∧
      c.payload = ⟨nonce, account_id, "intents.near", toString (now_ms + 120000),
        [⟨"token_diff",
          mkDiff id_in ("-" ++ to_decimals amount_in ai.decimals)
                 id_out (to_decimals amount_out ao.decimals)⟩]⟩ := by
  unfold create_shielded_token_diff_quote
  rw [h1, h2, g1, g2]
  dsimp only
  repeat' split
  all_goals exact ⟨_, rfl, rfl⟩

/-- Asset identifiers of distinct registered symbols are distinct. -/
theorem asset_id_injective {t1 t2 : String} {i1 i2 : AssetInfo}
    {tid1 tid2 : String}
    (h1 : ASSET_MAP t1 = some i1) (h2 : ASSET_MAP t2 = some i2)
    (hne : t1 ≠ t2)
    (g1 : get_asset_id t1 = some tid1) (g2 : get_asset_id t2 = some tid2) :
    tid1 ≠ tid2 := by
  rcases ASSET_MAP_cases h1 with rfl | rfl | rfl <;>
    rcases ASSET_MAP_cases h2 with rfl | rfl | rfl <;>
    first
      | exact absurd rfl hne
      | (injection g1 with g1
         injection g2 with g2
         subst g1
         subst g2
         decide)

/-- C4: with no shield_options supplied, the built commitment carries
shield_params exactly when one of the two tokens is privacy-capable, and
carries none (hence no memo and no viewing key) otherwise. -/
theorem create_shielded_default_privacy (nonce : String) (now_ms : ℕ)
    (account_id : String) (sign : SignedQuote → String) (pk : String)
    (token_in token_out : String) (info_in info_out : AssetInfo)
    (amount_in amount_out : ℚ)
    (h1 : ASSET_MAP token_in = some info_in)
    (h2 : ASSET_MAP token_out = some info_out) :
    ∃ c, create_shielded_token_diff_quote nonce now_ms account_id sign pk
            token_in amount_in token_out amount_out none = some c ∧
      (c.shield_params.isSome = true ↔
        (privacy_capable token_in = true ∨ privacy_capable token_out = true)) ∧
      ((privacy_capable token_in = false ∧ privacy_capable token_out = false) →
        c.shield_params = none) := by
  rcases ASSET_MAP_cases h1 with rfl | rfl | rfl <;>
    rcases ASSET_MAP_cases h2 with rfl | rfl | rfl <;>
    exact ⟨_, rfl, by simp [privacy_capable, ASSET_MAP],
           by simp [privacy_capable, ASSET_MAP]⟩

/-- C4 witness: the defaulting rule at the pair NEAR (not privacy-capable)
and ZEC (privacy-capable). -/
theorem create_shielded_default_privacy_witness :
    ∃ c, create_shielded_token_diff_quote "NONCE" 0 "alice.near"
            (fun _ => "SIG") "PUBKEY" "NEAR" 1 "ZEC" 2 none = some c ∧
      (c.shield_params.isSome = true ↔
        (privacy_capable "NEAR" = true ∨ privacy_capable "ZEC" = true)) ∧
      ((privacy_capable "NEAR" = false ∧ privacy_capable "ZEC" = false) →
        c.shield_params = none) :=
  create_shielded_default_privacy "NONCE" 0 "alice.near" (fun _ => "SIG")
    "PUBKEY" "NEAR" "ZEC" ⟨"wrap.near", none, 24, false⟩
    ⟨"zcash.factory.bridge.near", some "zcash-token.omft.near", 8, true⟩
    1 2 rfl rfl

/-- C9: when token_in and token_out coincide, the diff dict collapses to a
single entry holding only the positive output amount (the credit
overwrites the debit under the shared asset identifier); the two-entry
debit/credit shape holds for every pair of distinct registered tokens. -/
theorem token_diff_overwrite (nonce : String) (now_ms : ℕ)
    (account_id : String) (sign : SignedQuote → String) (pk : String)
    (amount_in amount_out : ℚ) :
    (∀ (t : String) (info : AssetInfo), ASSET_MAP t = some info →
      ∀ so, ∃ c tid,
        create_shielded_token_diff_quote nonce now_ms account_id sign pk
            t amount_in t amount_out so = some c ∧
        get_asset_id t = some tid ∧
        c.payload.intents =
          [⟨"token_diff", [(tid, to_decimals amount_out info.decimals)]⟩]) ∧
    (∀ (t1 t2 : String) (i1 i2 : AssetInfo),
      ASSET_MAP t1 = some i1 → ASSET_MAP t2 = some i2 → t1 ≠ t2 →
      ∀ so, ∃ c tid1 tid2,
        create_shielded_token_diff_quote nonce now_ms account_id sign pk
            t1 amount_in t2 amount_out so = some c ∧
        get_asset_id t1 = some tid1 ∧ get_asset_id t2 = some tid2 ∧
        tid1 ≠ tid2 ∧
        c.payload.intents =
          [⟨"token_diff",
            [(tid1, "-" ++ to_decimals amount_in i1.decimals),
             (tid2, to_decimals amount_out i2.decimals)]⟩]) := by
  constructor
  · intro t info h so
    obtain ⟨tid, g⟩ := get_asset_id_registered h
    obtain ⟨c, hc, hp⟩ := create_payload nonce now_ms account_id sign pk
      t amount_in t amount_out so info info tid tid h h g g
    refine ⟨c, tid, hc, g, ?_⟩
    rw [hp]
    simp [mkDiff]
  · intro t1 t2 i1 i2 h1 h2 hne so
    obtain ⟨tid1, g1⟩ := get_asset_id_registered h1
    obtain ⟨tid2, g2⟩ := get_asset_id_registered h2
    have hid : tid1 ≠ tid2 := asset_id_injective h1 h2 hne g1 g2
    obtain ⟨c, hc, hp⟩ := create_payload nonce now_ms account_id sign pk
      t1 amount_in t2 amount_out so i1 i2 tid1 tid2 h1 h2 g1 g2
    refine ⟨c, tid1, tid2, hc, g1, g2, hid, ?_⟩
    rw [hp]
    simp [mkDiff, hid]

/-- C9 witness: the collapse at the pair ZEC/ZEC and the two-entry shape
at the pair NEAR/ZEC. -/
theorem token_diff_overwrite_witness :
    (∃ c tid,
      create_shielded_token_diff_quote "NONCE" 0 "alice.near"
          (fun _ => "SIG") "PUBKEY" "ZEC" 1 "ZEC" 2 none = some c ∧
      get_asset_id "ZEC" = some tid ∧
      c.payload.intents =
        [⟨"token_diff",
          [(tid, to_decimals 2
              (AssetInfo.mk "zcash.factory.bridge.near"
                (some "zcash-token.omft.near") 8 true).decimals)]⟩]) ∧
    (∃ c tid1 tid2,
      create_shielded_token_diff_quote "NONCE" 0 "alice.near"
          (fun _ => "SIG") "PUBKEY" "NEAR" 1 "ZEC" 2 none = some c ∧
      get_asset_id "NEAR" = some tid1 ∧ get_asset_id "ZEC" = some tid2 ∧
      tid1 ≠ tid2 ∧
      c.payload.intents =
        [⟨"token_diff",
          [(tid1, "-" ++ to_decimals 1
              (AssetInfo.mk "wrap.near" none 24 false).decimals),
           (tid2, to_decimals 2
              (AssetInfo.mk "zcash.factory.bridge.near"
                (some "zcash-token.omft.near") 8 true).decimals)]⟩]) :=
  ⟨(token_diff_overwrite "NONCE" 0 "alice.near" (fun _ => "SIG") "PUBKEY"
      1 2).1 "ZEC" _ rfl none,
   (token_diff_overwrite "NONCE" 0 "alice.near" (fun _ => "SIG") "PUBKEY"
      1 2).2 "NEAR" "ZEC" _ _ rfl rfl (by decide) none⟩

/-- C5: fetch_options is total, returns the empty list on every failure
outcome the relay can produce (transport error, non-success status,
malformed body), and returns the relay's quote list on success. -/
theorem fetch_options_degrades :
    (∀ (request : IntentRequestS)
       (relay : SerializedRequest → RelayOutcome (List SolverOption))
       (s : SerializedRequest), serialize request = some s →
         (relay s).isError = true → fetch_options request relay = []) ∧
    (∀ (request : IntentRequestS)
       (relay : SerializedRequest → RelayOutcome (List SolverOption))
       (s : SerializedRequest) (quotes : List SolverOption),
         serialize request = some s → relay s = RelayOutcome.ok quotes →
         fetch_options request relay = quotes) := by
  constructor
  · intro request relay s hs herr
    unfold fetch_options
    simp only [hs]
    cases hr : relay s with
    | ok result => rw [hr] at herr; simp [RelayOutcome.isError] at herr
    | transportError m => simp only [hr]
    | httpError st m => simp only [hr]
    | malformed m => simp only [hr]
  · intro request relay s quotes hs hok
    unfold fetch_options
    simp only [hs, hok]

/-- C5 witness: a transport failure degrades to the empty list and a
successful relay call returns its quotes, at one concrete request. -/
theorem fetch_options_degrades_witness :
    fetch_options
        ⟨some "near", some "1000", some "nep141:zcash.factory.bridge.near",
         none, none, 120000⟩
        (fun _ => RelayOutcome.transportError "connection refused") = [] ∧
    fetch_options
        ⟨some "near", some "1000", some "nep141:zcash.factory.bridge.near",
         none, none, 120000⟩
        (fun _ => RelayOutcome.ok [⟨5, "s"⟩]) = [⟨5, "s"⟩] :=
  ⟨fetch_options_degrades.1 _ _
      ⟨"near", "nep141:zcash.factory.bridge.near", "1000", none,
       "relative", 120000, none⟩ rfl rfl,
   fetch_options_degrades.2 _ _
      ⟨"near", "nep141:zcash.factory.bridge.near", "1000", none,
       "relative", 120000, none⟩ [⟨5, "s"⟩] rfl rfl⟩

/-- C6: publish_shielded_intent propagates every failure outcome as an
error and never converts one into a normal result; only a successful
relay response returns normally. -/
theorem publish_shielded_intent_propagates :
    (∀ (R : Type) (o : RelayOutcome R), o.isError = true →
      ∃ e, publish_shielded_intent o = Except.error e) ∧
    (∀ (R : Type) (r : R),
      publish_shielded_intent (RelayOutcome.ok r) = Except.ok r) := by
  constructor
  · intro R o herr
    cases o with
    | ok r => simp [RelayOutcome.isError] at herr
    | transportError m => exact ⟨_, rfl⟩
    | httpError st m => exact ⟨_, rfl⟩
    | malformed m => exact ⟨_, rfl⟩
  · intro R r
    rfl

/-- C6 witness: a transport failure is propagated as an error, a success
body is returned, at concrete inputs. -/
theorem publish_shielded_intent_propagates_witness :
    (∃ e, publish_shielded_intent
        (RelayOutcome.transportError (α := ℕ) "connection reset")
      = Except.error e) ∧
    publish_shielded_intent (RelayOutcome.ok (7 : ℕ)) = Except.ok 7 :=
  ⟨publish_shielded_intent_propagates.1 ℕ _ rfl,
   publish_shielded_intent_propagates.2 ℕ 7⟩

/-- C7: when the fetched option list is empty, the orchestrator stops with
the noLiquidity error, and its result does not depend on the publish
collaborator at all (so no commitment is published, for any behaviour of
the publish relay). -/
theorem intent_swap_empty_noLiquidity {R : Type}
    (fetchRelay : SerializedRequest → RelayOutcome (List SolverOption))
    (publishRelay publishRelay2 : ZcashCommitment → RelayOutcome R)
    (nonce : String) (now_ms : ℕ) (account_id : String)
    (sign : SignedQuote → String) (pk : String)
    (token_in : String) (amount_in : ℚ) (token_out : String)
    (privacy_level : String) (r1 r2 : IntentRequestS)
    (h1 : set_asset_in emptyIntentRequest token_in amount_in = some r1)
    (h2 : set_asset_out r1 token_out none = some r2)
    (h3 : fetch_options r2 fetchRelay = []) :
    intent_swap_zec fetchRelay publishRelay nonce now_ms account_id sign pk
        token_in amount_in token_out privacy_level
      = Except.error (SwapError.noLiquidity token_in token_out) ∧
    intent_swap_zec fetchRelay publishRelay nonce now_ms account_id sign pk
        token_in amount_in token_out privacy_level
      = intent_swap_zec fetchRelay publishRelay2 nonce now_ms account_id sign pk
        token_in amount_in token_out privacy_level := by
  have e : ∀ (p : ZcashCommitment → RelayOutcome R),
      intent_swap_zec fetchRelay p nonce now_ms account_id sign pk
          token_in amount_in token_out privacy_level
        = Except.error (SwapError.noLiquidity token_in token_out) := by
    intro p
    unfold intent_swap_zec
    simp only [h1, h2, h3]
  exact ⟨e publishRelay, (e publishRelay).trans (e publishRelay2).symm⟩

/-- C7 witness: the NEAR-to-ZEC swap with a relay that returns no quotes,
under two different publish behaviours. -/
theorem intent_swap_empty_noLiquidity_witness :
    intent_swap_zec (R := ℕ) (fun _ => RelayOutcome.ok [])
        (fun _ => RelayOutcome.ok 0) "NONCE" 0 "alice.near" (fun _ => "SIG")
        "PUBKEY" "NEAR" 1 "ZEC" "shielded"
      = Except.error (SwapError.noLiquidity "NEAR" "ZEC") ∧
    intent_swap_zec (R := ℕ) (fun _ => RelayOutcome.ok [])
        (fun _ => RelayOutcome.ok 0) "NONCE" 0 "alice.near" (fun _ => "SIG")
        "PUBKEY" "NEAR" 1 "ZEC" "shielded"
      = intent_swap_zec (R := ℕ) (fun _ => RelayOutcome.ok [])
        (fun _ => RelayOutcome.transportError "down") "NONCE" 0 "alice.near"
        (fun _ => "SIG") "PUBKEY" "NEAR" 1 "ZEC" "shielded" :=
  intent_swap_empty_noLiquidity (fun _ => RelayOutcome.ok [])
    (fun _ => RelayOutcome.ok 0) (fun _ => RelayOutcome.transportError "down")
    "NONCE" 0 "alice.near" (fun _ => "SIG") "PUBKEY" "NEAR" 1 "ZEC" "shielded"
    ⟨some "near", some (to_decimals 1 24), none, none, none, 120000⟩
    ⟨some "near", some (to_decimals 1 24),
     some "nep141:zcash.factory.bridge.near", none, none, 120000⟩
    rfl rfl rfl

/-- C10: serialize fails (key lookup, modelled as none) whenever either
setter was never called on a fresh request, and succeeds with the
protocol-shaped structure once both setters have run. -/
theorem serialize_requires_both_setters :
    serialize emptyIntentRequest = none ∧
    (∀ (t : String) (amt : ℚ) r,
      set_asset_in emptyIntentRequest t amt = some r → serialize r = none) ∧
    (∀ (t : String) (amt : Option ℚ) r,
      set_asset_out emptyIntentRequest t amt = some r → serialize r = none) ∧
    (∀ (t1 : String) (amt1 : ℚ) (t2 : String) (amt2 : Option ℚ) r1 r2,
      set_asset_in emptyIntentRequest t1 amt1 = some r1 →
      set_asset_out r1 t2 amt2 = some r2 →
      ∃ s, serialize r2 = some s ∧
        s.deadline_type = "relative" ∧ s.deadline_ms = 120000) := by
  refine ⟨rfl, ?_, ?_, ?_⟩
  · intro t amt r h
    unfold set_asset_in at h
    cases hm : ASSET_MAP t with
    | none => rw [hm] at h; exact absurd h (by simp)
    | some info =>
      simp only [hm] at h
      cases hg : get_asset_id t with
      | none => rw [hg] at h; exact absurd h (by simp)
      | some aid =>
        simp only [hg] at h
        have hr := Option.some.inj h
        subst hr
        rfl
  · intro t amt r h
    unfold set_asset_out at h
    cases hm : ASSET_MAP t with
    | none => rw [hm] at h; exact absurd h (by simp)
    | some info =>
      simp only [hm] at h
      cases hg : get_asset_id t with
      | none => rw [hg] at h; exact absurd h (by simp)
      | some aid =>
        simp only [hg] at h
        cases amt with
        | some a =>
          simp only at h
          have hr := Option.some.inj h
          subst hr
          rfl
        | none =>
          simp only at h
          have hr := Option.some.inj h
          subst hr
          rfl
  · intro t1 amt1 t2 amt2 r1 r2 h1 h2
    unfold set_asset_in at h1
    cases hm1 : ASSET_MAP t1 with
    | none => rw [hm1] at h1; exact absurd h1 (by simp)
    | some info1 =>
      simp only [hm1] at h1
      cases hg1 : get_asset_id t1 with
      | none => rw [hg1] at h1; exact absurd h1 (by simp)
      | some aid1 =>
        simp only [hg1] at h1
        have hr1 := Option.some.inj h1
        subst hr1
        unfold set_asset_out at h2
        cases hm2 : ASSET_MAP t2 with
        | none => rw [hm2] at h2; exact absurd h2 (by simp)
        | some info2 =>
          simp only [hm2] at h2
          cases hg2 : get_asset_id t2 with
          | none => rw [hg2] at h2; exact absurd h2 (by simp)
          | some aid2 =>
            simp only [hg2] at h2
            cases amt2 with
            | some a =>
              simp only at h2
              have hr2 := Option.some.inj h2
              subst hr2
              exact ⟨_, rfl, rfl, rfl⟩
            | none =>
              simp only at h2
              have hr2 := Option.some.inj h2
              subst hr2
              exact ⟨_, rfl, rfl, rfl⟩

/-- C10 witness: the serialize contract at a fresh request on which both
setters were run for NEAR in and ZEC out. -/
theorem serialize_requires_both_setters_witness :
    ∃ s, serialize
        ⟨some "near", some (to_decimals 1 24),
         some "nep141:zcash.factory.bridge.near", none, none, 120000⟩
      = some s ∧ s.deadline_type = "relative" ∧ s.deadline_ms = 120000 :=
  serialize_requires_both_setters.2.2.2 "NEAR" 1 "ZEC" none
    ⟨some "near", some (to_decimals 1 24), none, none, none, 120000⟩
    ⟨some "near", some (to_decimals 1 24),
     some "nep141:zcash.factory.bridge.near", none, none, 120000⟩ rfl rfl

/-- C8 counterexample: on the portfolio with 1 NEAR, 1 ZEC, 0 USDC the
code's privacy ratio is 50 (raw balances), while the NEAR-denominated
value ratio the claim describes is 1000/11: the analysis does not weight
the privacy ratio by the exchange-rate values it uses for the total. -/
theorem privacy_ratio_counterexample :
    calculate_privacy_ratio [("NEAR", 1), ("ZEC", 1), ("USDC", 0)]
      ≠ spec_privacy_ratio [("NEAR", 1), ("ZEC", 1), ("USDC", 0)] := by
  have hlZ : (([("NEAR", (1:ℚ)), ("ZEC", 1), ("USDC", 0)]).lookup "ZEC")
      = some 1 := rfl
  have hlN : (([("NEAR", (1:ℚ)), ("ZEC", 1), ("USDC", 0)]).lookup "NEAR")
      = some 1 := rfl
  have hlU : (([("NEAR", (1:ℚ)), ("ZEC", 1), ("USDC", 0)]).lookup "USDC")
      = some 0 := rfl
  have h1 : calculate_privacy_ratio [("NEAR", 1), ("ZEC", 1), ("USDC", 0)] = 50 := by
    norm_num [calculate_privacy_ratio, hlZ, List.map_cons, List.map_nil,
      List.sum_cons, List.sum_nil]
  have h2 : spec_privacy_ratio [("NEAR", 1), ("ZEC", 1), ("USDC", 0)] = 1000 / 11 := by
    norm_num [spec_privacy_ratio, total_value_near, privacy_value_near,
      hlZ, hlN, hlU]
  rw [h1, h2]
  norm_num

/-- C8 amended: the privacy ratio the analysis computes is the ZEC balance
over the sum of the raw balances, times 100 — balance-weighted, not
value-weighted — and 0 whenever the total is not positive. -/
theorem calculate_privacy_ratio_balances (p : List (String × ℚ)) :
    ((p.map Prod.snd).sum ≤ 0 → calculate_privacy_ratio p = 0) ∧
    (0 < (p.map Prod.snd).sum →
      calculate_privacy_ratio p * (p.map Prod.snd).sum
        = ((p.lookup "ZEC").getD 0) * 100) := by
  constructor
  · intro h
    simp [calculate_privacy_ratio, h]
  · intro h
    have hne : (p.map Prod.snd).sum ≠ 0 := ne_of_gt h
    have hnle : ¬((p.map Prod.snd).sum ≤ 0) := not_le.mpr h
    simp only [calculate_privacy_ratio, if_neg hnle]
    field_simp

/-- C8 witness: the balance-weighted identity at a concrete two-asset
portfolio. -/
theorem calculate_privacy_ratio_balances_witness :
    calculate_privacy_ratio [("NEAR", 3), ("ZEC", 2)]
        * (([("NEAR", (3:ℚ)), ("ZEC", 2)]).map Prod.snd).sum
      = ((([("NEAR", (3:ℚ)), ("ZEC", 2)]).lookup "ZEC").getD 0) * 100 :=
  (calculate_privacy_ratio_balances _).2
    (by norm_num [List.map_cons, List.map_nil, List.sum_cons, List.sum_nil])

end ZcashIntents
